import Mathlib

/-!
Shallow embedding of `telegram_notification_bot.py`.

The program has two components with real logic:

* `load_rules` (source lines 40-75): parses a YAML document into a list of
  `Rule` records, compiling each `pattern` with `re.compile(pattern_str,
  re.MULTILINE)` and each `template` with `jinja2.Template(template_str)`.
  Any failure (non-list root after the `yaml.safe_load(f) or []` coercion,
  missing/ill-typed keys, regex compile error, template compile error)
  propagates out of `load_rules`, aborting startup.

* `match_and_send` (source lines 79-100): given the inbound text, returns
  immediately on empty text, otherwise scans the rules in order with
  `rule.pattern.search(text)`, and for the first match builds
  `data = m.groupdict(); data["_raw"] = text`, renders
  `rule.template.render(**data)` and attempts one
  `context.bot.send_message(...)` guarded by `try/except`, then breaks.

The embedding models the fragments of Python `re` and `jinja2` that the
rules of this program exercise: regexes built from literal characters,
`\d`/`\w`/`\s` classes, `^`/`$` anchors (multiline flag explicit),
alternation, `?`-optionality and named groups `(?P<name>...)`, matched with
Python's leftmost, left-alternative-first backtracking search; templates
made of literal text and `{{ expr }}` interpolations where `expr` is an
identifier, an integer literal, or a `+` chain, evaluated over Python
values (string, int, `None`, Jinja `Undefined`).  Constructs outside the
fragment are rejected at compile time, which only ever makes `load_rules`
fail more often, never differently on accepted inputs.
-/

set_option maxRecDepth 8192

/-- Regular-expression fragment of Python `re` used by the rule patterns. -/
inductive RE where
  | eps
  | char (c : Char)
  | cls (f : Char → Bool)
  | anchorStart
  | anchorEnd
  | seq (a b : RE)
  | alt (a b : RE)
  | opt (a : RE)
  | group (name : String) (a : RE)

/-- Positions where `^` matches: start of subject, and (with `re.MULTILINE`)
any position directly after a newline. -/
def lineStartOk (ml : Bool) (chars : List Char) (pos : Nat) : Bool :=
  (pos == 0) || (ml && (chars.get? (pos - 1) == some '\n'))

/-- Positions where `$` matches: end of subject; with `re.MULTILINE` also
directly before any newline, without it only before a final newline. -/
def lineEndOk (ml : Bool) (chars : List Char) (pos : Nat) : Bool :=
  (pos == chars.length) ||
    (if ml then chars.get? pos == some '\n'
     else (pos + 1 == chars.length) && (chars.get? pos == some '\n'))

/-- Capture store: group name to the last substring that group consumed. -/
abbrev Caps := List (String × String)

/-- Record a capture, overwriting an earlier capture of the same group. -/
def setCap (n : String) (v : String) : Caps → Caps
  | [] => [(n, v)]
  | (n2, v2) :: rest => if n2 = n then (n2, v) :: rest else (n2, v2) :: setCap n v rest

/-- Backtracking matcher in continuation style: try to match `re` at `pos`,
calling `k` with the end position and captures of each candidate parse,
left-to-right as Python's engine would (alternation and `?` are greedy and
try the left/present branch first). -/
def matchRE (chars : List Char) (ml : Bool) :
    RE → Nat → Caps → (Nat → Caps → Option (Nat × Caps)) → Option (Nat × Caps)
  | .eps, pos, caps, k => k pos caps
  | .char c, pos, caps, k =>
      match chars.get? pos with
      | some c2 => if c2 = c then k (pos + 1) caps else none
      | none => none
  | .cls f, pos, caps, k =>
      match chars.get? pos with
      | some c2 => if f c2 then k (pos + 1) caps else none
      | none => none
  | .anchorStart, pos, caps, k => if lineStartOk ml chars pos then k pos caps else none
  | .anchorEnd, pos, caps, k => if lineEndOk ml chars pos then k pos caps else none
  | .seq a b, pos, caps, k =>
      matchRE chars ml a pos caps (fun p c => matchRE chars ml b p c k)
  | .alt a b, pos, caps, k =>
      match matchRE chars ml a pos caps k with
      | some r => some r
      | none => matchRE chars ml b pos caps k
  | .opt a, pos, caps, k =>
      match matchRE chars ml a pos caps k with
      | some r => some r
      | none => k pos caps
  | .group n a, pos, caps, k =>
      matchRE chars ml a pos caps (fun p c =>
        k p (setCap n ((chars.drop pos).take (p - pos)).asString c))

/-- All named groups of a pattern, in definition order (as `groupdict` lists
them). -/
def groupNames : RE → List String
  | .eps | .char _ | .cls _ | .anchorStart | .anchorEnd => []
  | .seq a b => groupNames a ++ groupNames b
  | .alt a b => groupNames a ++ groupNames b
  | .opt a => groupNames a
  | .group n a => n :: groupNames a

/-- Result of a successful `search`, mirroring a Python match object. -/
structure MatchRes where
  startPos : Nat
  endPos : Nat
  caps : Caps
  deriving DecidableEq

/-- A compiled pattern: the parsed regex plus its `re.MULTILINE` flag. -/
structure CompiledPattern where
  re : RE
  ml : Bool

/-- Attempt a match anchored at position `pos`. -/
def CompiledPattern.matchAt (p : CompiledPattern) (chars : List Char) (pos : Nat) :
    Option MatchRes :=
  match matchRE chars p.ml p.re pos [] (fun e c => some (e, c)) with
  | some (e, c) => some ⟨pos, e, c⟩
  | none => none

/-- Python `pattern.search(text)`: scan candidate start positions left to
right (including the position just past the last character) and return the
leftmost match. -/
def CompiledPattern.search (p : CompiledPattern) (text : String) : Option MatchRes :=
  (List.range (text.toList.length + 1)).findSome? (fun i => p.matchAt text.toList i)

/-- Python `m.groupdict()`: every named group of the pattern, mapped to its
captured substring, or to `None` (here `Option.none`) when the group did not
participate in the match. -/
def CompiledPattern.groupdict (p : CompiledPattern) (m : MatchRes) :
    List (String × Option String) :=
  (groupNames p.re).map (fun n => (n, m.caps.lookup n))

/-- Character allowed inside a Python identifier. -/
def identChar (c : Char) : Bool := c.isAlphanum || c == '_'

/-- Character allowed to start a Python identifier. -/
def identStartChar (c : Char) : Bool := c.isAlpha || c == '_'

/-- Parse the group name of a `(?P<name>...)` construct, up to the `>`. -/
def parseName (cs : List Char) : Except String (String × List Char) :=
  let name := cs.takeWhile (fun c => c != '>')
  let rest := cs.drop name.length
  match rest with
  | '>' :: r =>
      match name with
      | [] => .error "missing group name"
      | c0 :: crest =>
          if identStartChar c0 && crest.all identChar then .ok (name.asString, r)
          else .error "bad character in group name"
  | _ => .error "missing >, unterminated name"

mutual

/-- Parse an alternation `seq ('|' alt)?`. -/
def parseAlt : Nat → List Char → Except String (RE × List Char)
  | 0, _ => .error "pattern too deeply nested"
  | fuel + 1, cs => do
      let (a, rest) ← parseSeq fuel cs
      match rest with
      | '|' :: rest2 => do
          let (b, rest3) ← parseAlt fuel rest2
          .ok (.alt a b, rest3)
      | _ => .ok (a, rest)

/-- Parse a sequence of atoms, each optionally followed by `?`. -/
def parseSeq : Nat → List Char → Except String (RE × List Char)
  | 0, _ => .error "pattern too deeply nested"
  | fuel + 1, cs =>
      match cs with
      | [] => .ok (.eps, [])
      | ')' :: _ => .ok (.eps, cs)
      | '|' :: _ => .ok (.eps, cs)
      | _ => do
          let (a, rest) ← parseAtom fuel cs
          let (a2, rest2) :=
            match rest with
            | '?' :: r2 => (RE.opt a, r2)
            | _ => (a, rest)
          let (b, rest3) ← parseSeq fuel rest2
          .ok (.seq a2 b, rest3)

/-- Parse one atom: anchor, escape, group, or literal character.  Constructs
of Python `re` outside the modeled fragment are rejected. -/
def parseAtom : Nat → List Char → Except String (RE × List Char)
  | 0, _ => .error "pattern too deeply nested"
  | fuel + 1, cs =>
      match cs with
      | [] => .error "unexpected end of pattern"
      | '^' :: r => .ok (.anchorStart, r)
      | '$' :: r => .ok (.anchorEnd, r)
      | '\\' :: 'd' :: r => .ok (.cls Char.isDigit, r)
      | '\\' :: 'w' :: r => .ok (.cls identChar, r)
      | '\\' :: 's' :: r =>
          .ok (.cls (fun c => c == ' ' || c == '\t' || c == '\n' || c == '\r'), r)
      | '\\' :: 'n' :: r => .ok (.char '\n', r)
      | '\\' :: 't' :: r => .ok (.char '\t', r)
      | '\\' :: c :: r =>
          if c.isAlphanum then .error "bad escape"
          else .ok (.char c, r)
      | ['\\'] => .error "bad escape (end of pattern)"
      | '(' :: '?' :: 'P' :: '<' :: r => do
          let (n, r2) ← parseName r
          let (a, r3) ← parseAlt fuel r2
          match r3 with
          | ')' :: r4 => .ok (.group n a, r4)
          | _ => .error "missing ), unterminated subpattern"
      | '(' :: '?' :: ':' :: r => do
          let (a, r2) ← parseAlt fuel r
          match r2 with
          | ')' :: r3 => .ok (a, r3)
          | _ => .error "missing ), unterminated subpattern"
      | '(' :: '?' :: _ => .error "unknown extension"
      | '(' :: r => do
          let (a, r2) ← parseAlt fuel r
          match r2 with
          | ')' :: r3 => .ok (a, r3)
          | _ => .error "missing ), unterminated subpattern"
      | ')' :: _ => .error "unbalanced parenthesis"
      | '*' :: _ => .error "repetition outside modeled fragment"
      | '+' :: _ => .error "repetition outside modeled fragment"
      | '?' :: _ => .error "nothing to repeat"
      | '[' :: _ => .error "character class outside modeled fragment"
      | c :: r => .ok (.char c, r)

end

/-- Model of `re.compile(s, flags)` over the fragment; `load_rules` always
passes `re.MULTILINE`, so `ml` below is always `true` there.  Duplicate
group names are a compile error, as in Python. -/
def reCompile (s : String) (ml : Bool) : Except String CompiledPattern := do
  let (a, rest) ← parseAlt (3 * s.toList.length + 8) s.toList
  match rest with
  | [] =>
      if (groupNames a).Nodup then .ok ⟨a, ml⟩
      else .error "redefinition of group name"
  | _ => .error "unbalanced parenthesis"

/-- Python values a template context can hold in this program: captured
strings, integers, `None` (an unparticipating group) and Jinja's
`Undefined` (a name missing from the context). -/
inductive JVal where
  | vstr (s : String)
  | vint (n : Int)
  | vnone
  | vundef
  deriving DecidableEq

/-- Jinja expression fragment: identifiers, integer literals, `+`. -/
inductive JExpr where
  | var (name : String)
  | intLit (n : Int)
  | add (a b : JExpr)
  deriving DecidableEq

/-- A compiled template node: literal text or a `{{ expr }}` interpolation. -/
inductive TplPart where
  | lit (s : String)
  | expr (e : JExpr)
  deriving DecidableEq

/-- A compiled `jinja2.Template`. -/
structure Template where
  parts : List TplPart
  deriving DecidableEq

/-- Template rendering context, as built from `render(**data)`. -/
abbrev Ctx := List (String × JVal)

/-- Evaluate a Jinja expression.  A missing name is `Undefined` (renders as
the empty string); arithmetic on `Undefined` raises `UndefinedError`; `+`
between `None`/mismatched operands raises `TypeError` — all at render time,
exactly as `jinja2` with its default undefined behaves. -/
def evalJExpr (ctx : Ctx) : JExpr → Except String JVal
  | .var n =>
      match ctx.lookup n with
      | some v => .ok v
      | none => .ok .vundef
  | .intLit n => .ok (.vint n)
  | .add a b => do
      let va ← evalJExpr ctx a
      let vb ← evalJExpr ctx b
      match va, vb with
      | .vundef, _ => .error "UndefinedError"
      | _, .vundef => .error "UndefinedError"
      | .vint x, .vint y => .ok (.vint (x + y))
      | .vstr x, .vstr y => .ok (.vstr (x ++ y))
      | _, _ => .error "TypeError: unsupported operand type(s) for +"

/-- How a value prints into the output: `str()` of the value, with `None`
printing as `"None"` and `Undefined` printing as the empty string. -/
def JVal.toOutput : JVal → String
  | .vstr s => s
  | .vint n => toString n
  | .vnone => "None"
  | .vundef => ""

/-- Render a list of template parts left to right; the first failing
interpolation raises. -/
def renderParts (ctx : Ctx) : List TplPart → Except String String
  | [] => .ok ""
  | .lit s :: rest => do
      let r ← renderParts ctx rest
      .ok (s ++ r)
  | .expr e :: rest => do
      let v ← evalJExpr ctx e
      let r ← renderParts ctx rest
      .ok (v.toOutput ++ r)

/-- Python `template.render(**data)`. -/
def Template.render (t : Template) (ctx : Ctx) : Except String String :=
  renderParts ctx t.parts

/-- Split an interpolation body from the rest of the template at the first
`}}`, or fail if the `{{` is never closed. -/
def splitAtClose : List Char → Option (List Char × List Char)
  | [] => none
  | '}' :: '}' :: rest => some ([], rest)
  | c :: rest =>
      match splitAtClose rest with
      | some (a, b) => some (c :: a, b)
      | none => none

/-- Drop leading spaces of an expression body. -/
def skipSpaces (cs : List Char) : List Char := cs.dropWhile (fun c => c == ' ')

/-- Numeric value of a digit string. -/
def digitsToNat (cs : List Char) : Nat :=
  cs.foldl (fun acc c => 10 * acc + (c.toNat - '0'.toNat)) 0

/-- Parse one Jinja expression: `prim ('+' expr)?` with `prim` an identifier
or an integer literal. -/
def parseJExpr : Nat → List Char → Except String (JExpr × List Char)
  | 0, _ => .error "expression too deeply nested"
  | fuel + 1, cs =>
      let cs2 := skipSpaces cs
      match cs2 with
      | [] => .error "unexpected end of expression"
      | c :: _ => do
          let (prim, rest) ←
            if c.isDigit then
              let digits := cs2.takeWhile Char.isDigit
              Except.ok (JExpr.intLit (digitsToNat digits), cs2.drop digits.length)
            else if identStartChar c then
              let name := cs2.takeWhile identChar
              Except.ok (JExpr.var name.asString, cs2.drop name.length)
            else Except.error "unexpected character in expression"
          let rest2 := skipSpaces rest
          match rest2 with
          | '+' :: r3 => do
              let (b, r4) ← parseJExpr fuel r3
              .ok (JExpr.add prim b, r4)
          | _ => .ok (prim, rest2)

/-- Compile the template body: literal characters interleaved with
`{{ expr }}` interpolations. -/
def parseTemplateAux : Nat → List Char → Except String (List TplPart)
  | 0, _ => .error "template too deeply nested"
  | fuel + 1, cs =>
      match cs with
      | [] => .ok []
      | '{' :: '{' :: rest =>
          match splitAtClose rest with
          | none => .error "unexpected end of template, expected end of print statement"
          | some (inner, rest2) => do
              let (e, leftover) ← parseJExpr (inner.length + 1) inner
              match skipSpaces leftover with
              | [] => do
                  let parts ← parseTemplateAux fuel rest2
                  .ok (.expr e :: parts)
              | _ => .error "expected end of print statement"
      | c :: rest => do
          let parts ← parseTemplateAux fuel rest
          .ok (.lit (String.singleton c) :: parts)

/-- Model of `jinja2.Template(template_str)` over the fragment. -/
def templateCompile (s : String) : Except String Template := do
  let parts ← parseTemplateAux (s.toList.length + 1) s.toList
  .ok ⟨parts⟩

/-- YAML documents as `yaml.safe_load` returns them for this program's rule
files: scalars, sequences and string-keyed mappings. -/
inductive Yaml where
  | null
  | bool (b : Bool)
  | int (n : Int)
  | str (s : String)
  | list (xs : List Yaml)
  | map (kvs : List (String × Yaml))

/-- Python truthiness of a loaded YAML value, as used by
`yaml.safe_load(f) or []` on source line 43. -/
def Yaml.truthy : Yaml → Bool
  | .null => false
  | .bool b => b
  | .int n => n != 0
  | .str s => s != ""
  | .list xs => !xs.isEmpty
  | .map kvs => !kvs.isEmpty

/-- Whether the value is a sequence (`isinstance(raw, list)`). -/
def Yaml.isList : Yaml → Bool
  | .list _ => true
  | _ => false

/-- Python `r[k]` on a loaded entry: `KeyError` when the key is absent,
`TypeError` when the entry is not a mapping at all. -/
def yamlGet (r : Yaml) (k : String) : Except String Yaml :=
  match r with
  | .map kvs =>
      match kvs.lookup k with
      | some v => .ok v
      | none => .error ("KeyError: " ++ k)
  | _ => .error "TypeError: entry is not a mapping"

/-- Python `int(x)` on the YAML value of `topic_id`: ints pass through,
bools coerce, decimal strings parse, everything else raises. -/
def pyInt : Yaml → Except String Int
  | .int n => .ok n
  | .bool b => .ok (if b then 1 else 0)
  | .str s =>
      match s.toList with
      | '-' :: ds =>
          if !ds.isEmpty && ds.all Char.isDigit then .ok (-(digitsToNat ds : Int))
          else .error "ValueError: invalid literal for int()"
      | ds =>
          if !ds.isEmpty && ds.all Char.isDigit then .ok (digitsToNat ds : Int)
          else .error "ValueError: invalid literal for int()"
  | _ => .error "TypeError: int() argument must be a string or a number"

/-- In-memory rule, source lines 34-38. -/
structure Rule where
  pattern : CompiledPattern
  topic_id : Int
  template : Template

/-- Source line 65: `re.compile(pattern_str, re.MULTILINE)`; a non-string
pattern value raises `TypeError` inside `re.compile`. -/
def compilePatternField : Yaml → Except String CompiledPattern
  | .str s => reCompile s true
  | _ => .error "TypeError: first argument must be string or compiled pattern"

/-- Source line 69: `Template(template_str)`; a non-string template value
raises `TypeError` inside jinja. -/
def compileTemplateField : Yaml → Except String Template
  | .str s => templateCompile s
  | _ => .error "TypeError: template source must be a string"

/-- Loading of one rule entry, source lines 56-70: fetch the three fields
(key/`int()` errors propagate), compile the pattern, compile the template;
any raise aborts the whole load. -/
def load_rule (r : Yaml) : Except String Rule := do
  let patternVal ← yamlGet r "pattern"
  let topicVal ← yamlGet r "topic_id"
  let topic_id ← pyInt topicVal
  let templateVal ← yamlGet r "template"
  let pat ← compilePatternField patternVal
  let tpl ← compileTemplateField templateVal
  .ok ⟨pat, topic_id, tpl⟩

/-- The `for i, r in enumerate(raw)` loop of source lines 56-71: rules are
appended in entry order; the first failing entry aborts everything. -/
def loadList : List Yaml → Except String (List Rule)
  | [] => .ok []
  | r :: rest => do
      let rule ← load_rule r
      let rules ← loadList rest
      .ok (rule :: rules)

/-- What `load_rules` returns: the rules plus whether the
`rules file is empty` warning of source line 74 was logged. -/
structure LoadResult where
  rules : List Rule
  emptyWarning : Bool

/-- Source lines 40-75 (`load_rules`) after the file has been read and
YAML-parsed into `doc`: apply the `or []` truthiness coercion, reject a
non-list root (`SystemExit`), load the entries in order. -/
def load_rules (doc : Yaml) : Except String LoadResult :=
  match (if doc.truthy then doc else Yaml.list []) with
  | .list entries => do
      let rules ← loadList entries
      .ok ⟨rules, rules.isEmpty⟩
  | _ => .error "rules root must be a list"

/-- One attempted `context.bot.send_message(...)` call, source lines 90-96,
with the arguments the code passes. -/
structure SendCall where
  chat_id : Int
  text : String
  message_thread_id : Int
  disable_web_page_preview : Bool
  deriving DecidableEq

/-- Observable outcome of one `match_and_send` invocation.  The Python
function returns `None` in every case; the constructors name the distinct
control-flow exits: early return on empty text, loop exhausted, send
succeeded, send raised but was caught (lines 98-99), or an uncaught
exception escaping the function (a render-time fault).  `renderFailed` is
the outcome the spec prescribes for render faults; the code never produces
it. -/
inductive Outcome where
  | skipped
  | noMatch
  | delivered
  | deliveryFailed
  | renderFailed
  | raised (e : String)
  deriving DecidableEq

/-- Full observable behaviour of one routing call: the outcome, the indices
of rules whose pattern was searched (in order), and the send calls
attempted. -/
structure RouteResult where
  outcome : Outcome
  evaluated : List Nat
  sends : List SendCall
  deriving DecidableEq

/-- Lift a `groupdict` value into the Python value the context holds. -/
def optToJVal : Option String → JVal
  | some s => .vstr s
  | none => .vnone

/-- Python `d[k] = v` on a dict built in insertion order: overwrite the
existing entry for `k`, or append a new one. -/
def dictSet (d : Ctx) (k : String) (v : JVal) : Ctx :=
  match d with
  | [] => [(k, v)]
  | (k2, v2) :: rest => if k2 = k then (k2, v) :: rest else (k2, v2) :: dictSet rest k v

/-- Source lines 86-87: `data = m.groupdict(); data["_raw"] = text`. -/
def buildData (p : CompiledPattern) (m : MatchRes) (text : String) : Ctx :=
  dictSet ((p.groupdict m).map (fun nv => (nv.1, optToJVal nv.2))) "_raw" (.vstr text)

/-- The `for rule in RULES` loop of source lines 82-100, with `i` the index
of the first rule of the remaining list.  `gw` stands for the messaging
gateway: whether a given `send_message` call succeeds. -/
def routeLoop (chatId : Int) (gw : SendCall → Bool) (text : String) :
    List Rule → Nat → RouteResult
  | [], _ => ⟨.noMatch, [], []⟩
  | r :: rest, i =>
      match r.pattern.search text with
      | none =>
          let res := routeLoop chatId gw text rest (i + 1)
          ⟨res.outcome, i :: res.evaluated, res.sends⟩
      | some m =>
          match r.template.render (buildData r.pattern m text) with
          | .error e => ⟨.raised e, [i], []⟩
          | .ok out =>
              let call : SendCall := ⟨chatId, out, r.topic_id, true⟩
              if gw call then ⟨.delivered, [i], [call]⟩
              else ⟨.deliveryFailed, [i], [call]⟩

/-- Source lines 79-100 (`match_and_send`): return at once on empty text,
else run the first-match loop.  `chatId` stands for the global
`SUPERCHAT_ID`, `rules` for the global `RULES`. -/
def match_and_send (chatId : Int) (rules : List Rule) (text : String)
    (gw : SendCall → Bool) : RouteResult :=
  if text = "" then ⟨.skipped, [], []⟩ else routeLoop chatId gw text rules 0

/-- Success test for `Except` results. -/
def exceptOk {α : Type} : Except String α → Bool
  | .ok _ => true
  | .error _ => false

/-- Rules of a document (empty when the load fails), for stating concrete
routing facts about loaded configurations. -/
def loadedRules (doc : Yaml) : List Rule :=
  match load_rules doc with
  | .ok res => res.rules
  | .error _ => []

/-- Rule file with an optional named group whose template prints it. -/
def cfgOptionalGroup : Yaml := .list [
  .map [("pattern", .str "(?P<code>x)?y"), ("topic_id", .int 5),
        ("template", .str "\x7b\x7bcode\x7d\x7d")]]

/-- Rule file whose pattern names the reserved `_raw` field. -/
def cfgRawGroup : Yaml := .list [
  .map [("pattern", .str "(?P<_raw>a)b"), ("topic_id", .int 7),
        ("template", .str "\x7b\x7b_raw\x7d\x7d")]]

/-- Rule file whose template raises at render time (`"a" + 1`). -/
def cfgRenderFault : Yaml := .list [
  .map [("pattern", .str "(?P<code>a)"), ("topic_id", .int 3),
        ("template", .str "\x7b\x7bcode + 1\x7d\x7d")]]

/-- The two-rule file of spec Scenario B. -/
def cfgScenarioB : Yaml := .list [
  .map [("pattern", .str "^INFO"), ("topic_id", .int 1), ("template", .str "one")],
  .map [("pattern", .str "^INFO: special"), ("topic_id", .int 2), ("template", .str "two")]]

/-- Hand-built rules for instantiating the general routing theorems. -/
def ruleZ : Rule := ⟨⟨.char 'z', true⟩, 11, ⟨[.lit "Z"]⟩⟩

/-- Rule matching the letter `a`, rendering the constant `A`. -/
def ruleA : Rule := ⟨⟨.char 'a', true⟩, 22, ⟨[.lit "A"]⟩⟩

/-- Rule matching the letter `b`, rendering the constant `B`. -/
def ruleB : Rule := ⟨⟨.char 'b', true⟩, 33, ⟨[.lit "B"]⟩⟩

/-- Rule whose template raises at render time (`nope` is undefined and fed
into `+`). -/
def ruleBad : Rule := ⟨⟨.char 'a', true⟩, 44, ⟨[.expr (.add (.var "nope") (.intLit 1))]⟩⟩

/-- The compiled pattern of `cfgOptionalGroup`, pulled out for match-level
statements. -/
def patOptional : CompiledPattern :=
  match reCompile "(?P<code>x)?y" true with
  | .ok p => p
  | .error _ => ⟨.eps, true⟩

/-! Helper lemmas about lookups, `findSome?` and the routing loop. -/

theorem lookup_map_snd {β γ : Type} (l : List (String × β)) (f : β → γ) (n : String) :
    (l.map (fun nv => (nv.1, f nv.2))).lookup n = (l.lookup n).map f := by
  induction l with
  | nil => simp
  | cons hd tl ih =>
      obtain ⟨k, v⟩ := hd
      by_cases h : n = k
      · subst h
        simp [List.lookup_cons]
      · have hb : (n == k) = false := beq_eq_false_iff_ne.mpr h
        simp [List.lookup_cons, hb, ih]

theorem dictSet_lookup_self (d : Ctx) (k : String) (v : JVal) :
    (dictSet d k v).lookup k = some v := by
  induction d with
  | nil => simp [dictSet, List.lookup_cons]
  | cons hd tl ih =>
      obtain ⟨k2, v2⟩ := hd
      by_cases h : k2 = k
      · subst h
        simp [dictSet, List.lookup_cons]
      · have hb : (k == k2) = false := beq_eq_false_iff_ne.mpr (Ne.symm h)
        simp [dictSet, h, List.lookup_cons, hb, ih]

theorem dictSet_lookup_ne (d : Ctx) (k n : String) (v : JVal) (h : n ≠ k) :
    (dictSet d k v).lookup n = d.lookup n := by
  have hb : (n == k) = false := beq_eq_false_iff_ne.mpr h
  induction d with
  | nil => simp [dictSet, List.lookup_cons, hb]
  | cons hd tl ih =>
      obtain ⟨k2, v2⟩ := hd
      by_cases h2 : k2 = k
      · subst h2
        simp [dictSet, List.lookup_cons, hb]
      · simp [dictSet, h2, List.lookup_cons, ih]

theorem findSome?_isSome_iff {α β : Type} (f : α → Option β) (l : List α) :
    (l.findSome? f).isSome = true ↔ ∃ a ∈ l, (f a).isSome = true := by
  induction l with
  | nil => simp
  | cons hd tl ih =>
      rw [List.findSome?_cons]
      cases h : f hd with
      | some b =>
          simp only [Option.isSome_some, true_iff]
          exact ⟨hd, by simp, by simp [h]⟩
      | none => simp [h, ih]

theorem routeLoop_cons_none {r : Rule} {t : String} (c : Int) (gw : SendCall → Bool)
    (rest : List Rule) (i : Nat) (h : r.pattern.search t = none) :
    routeLoop c gw t (r :: rest) i =
      ⟨(routeLoop c gw t rest (i + 1)).outcome,
       i :: (routeLoop c gw t rest (i + 1)).evaluated,
       (routeLoop c gw t rest (i + 1)).sends⟩ := by
  simp [routeLoop, h]

theorem routeLoop_cons_render_error {r : Rule} {t : String} {m : MatchRes} {e : String}
    (c : Int) (gw : SendCall → Bool) (rest : List Rule) (i : Nat)
    (hs : r.pattern.search t = some m)
    (hr : r.template.render (buildData r.pattern m t) = .error e) :
    routeLoop c gw t (r :: rest) i = ⟨.raised e, [i], []⟩ := by
  simp [routeLoop, hs, hr]

theorem routeLoop_cons_render_ok {r : Rule} {t : String} {m : MatchRes} {out : String}
    (c : Int) (gw : SendCall → Bool) (rest : List Rule) (i : Nat)
    (hs : r.pattern.search t = some m)
    (hr : r.template.render (buildData r.pattern m t) = .ok out) :
    routeLoop c gw t (r :: rest) i =
      (if gw ⟨c, out, r.topic_id, true⟩
       then ⟨.delivered, [i], [⟨c, out, r.topic_id, true⟩]⟩
       else ⟨.deliveryFailed, [i], [⟨c, out, r.topic_id, true⟩]⟩) := by
  simp [routeLoop, hs, hr]

theorem routeLoop_append_pre (c : Int) (gw : SendCall → Bool) (t : String)
    (pre rest : List Rule) (i : Nat)
    (hpre : ∀ r ∈ pre, r.pattern.search t = none) :
    routeLoop c gw t (pre ++ rest) i =
      ⟨(routeLoop c gw t rest (i + pre.length)).outcome,
       List.range' i pre.length ++ (routeLoop c gw t rest (i + pre.length)).evaluated,
       (routeLoop c gw t rest (i + pre.length)).sends⟩ := by
  induction pre generalizing i with
  | nil => simp
  | cons hd tl ih =>
      have hhd : hd.pattern.search t = none := hpre hd (by simp)
      have htl : ∀ r ∈ tl, r.pattern.search t = none := fun r hr => hpre r (by simp [hr])
      have harith : i + 1 + tl.length = i + (tl.length + 1) := by omega
      rw [List.cons_append, routeLoop_cons_none c gw (tl ++ rest) i hhd, ih (i + 1) htl,
        harith]
      simp [List.range'_succ]

theorem routeLoop_gateway_independent (c : Int) (t : String) (gw1 gw2 : SendCall → Bool)
    (rules : List Rule) (i : Nat) :
    (routeLoop c gw1 t rules i).evaluated = (routeLoop c gw2 t rules i).evaluated ∧
    (routeLoop c gw1 t rules i).sends = (routeLoop c gw2 t rules i).sends := by
  induction rules generalizing i with
  | nil => simp [routeLoop]
  | cons hd tl ih =>
      cases hs : hd.pattern.search t with
      | none =>
          rw [routeLoop_cons_none c gw1 tl i hs, routeLoop_cons_none c gw2 tl i hs]
          exact ⟨by rw [(ih (i + 1)).1], (ih (i + 1)).2⟩
      | some m =>
          cases hr : hd.template.render (buildData hd.pattern m t) with
          | error e =>
              rw [routeLoop_cons_render_error c gw1 tl i hs hr,
                routeLoop_cons_render_error c gw2 tl i hs hr]
              exact ⟨rfl, rfl⟩
          | ok out =>
              rw [routeLoop_cons_render_ok c gw1 tl i hs hr,
                routeLoop_cons_render_ok c gw2 tl i hs hr]
              cases h1 : gw1 ⟨c, out, hd.topic_id, true⟩ <;>
                cases h2 : gw2 ⟨c, out, hd.topic_id, true⟩ <;> simp

/-- C6: for every rule set, calling the router with empty input text yields
the skipped outcome, evaluates no rule's pattern, and invokes no gateway
send. -/
theorem empty_text_skipped (chatId : Int) (rules : List Rule) (gw : SendCall → Bool) :
    match_and_send chatId rules "" gw = ⟨.skipped, [], []⟩ := by
  simp [match_and_send]

/-- C9: routing is deterministic.  The match decision (which rule indices
are evaluated) and the attempted sends (destination and rendered text) are a
pure function of the rule set and the input text: they do not depend on the
gateway's behaviour, so two invocations with the same text and rules select
the same rule and produce the same rendered output. -/
theorem route_deterministic (chatId : Int) (rules : List Rule) (text : String)
    (gw1 gw2 : SendCall → Bool) :
    (match_and_send chatId rules text gw1).evaluated =
      (match_and_send chatId rules text gw2).evaluated ∧
    (match_and_send chatId rules text gw1).sends =
      (match_and_send chatId rules text gw2).sends := by
  by_cases h : text = ""
  · simp [match_and_send, h]
  · simp only [match_and_send, if_neg h]
    exact routeLoop_gateway_independent chatId text gw1 gw2 rules 0

/-- C10: the context handed to the template always maps the reserved key
`_raw` to the full raw input text, because `data["_raw"] = text` runs after
`data = m.groupdict()` and overwrites any captured group of that name; the
second conjunct shows it concretely for a pattern that does declare a group
named `_raw` capturing only `"a"` out of `"ab!"`. -/
theorem raw_field_is_full_text :
    (∀ (p : CompiledPattern) (m : MatchRes) (text : String),
        (buildData p m text).lookup "_raw" = some (.vstr text)) ∧
    (match_and_send 1 (loadedRules cfgRawGroup) "ab!" (fun _ => true)).sends =
      [⟨1, "ab!", 7, true⟩] := by
  constructor
  · intro p m text
    exact dictSet_lookup_self _ _ _
  · rfl

theorem range'_zero_concat (n : Nat) :
    List.range' 0 n ++ [n] = List.range (n + 1) := by
  rw [List.range_eq_range', List.range'_concat]
  simp

/-- C1: first-match-wins dispatch.  For every rule set decomposed as
`pre ++ r :: post` where no rule of `pre` matches and `r` does, routing a
nonempty text evaluates exactly the patterns of rules `0 .. pre.length`
(configuration order, nothing after the first match), and attempts at most
one delivery, addressed to `r`'s destination only. -/
theorem first_match_wins (chatId : Int) (gw : SendCall → Bool) (text : String)
    (pre : List Rule) (r : Rule) (post : List Rule)
    (htext : text ≠ "")
    (hpre : ∀ r2 ∈ pre, r2.pattern.search text = none)
    (hr : (r.pattern.search text).isSome = true) :
    (match_and_send chatId (pre ++ r :: post) text gw).evaluated =
      List.range (pre.length + 1) ∧
    (match_and_send chatId (pre ++ r :: post) text gw).sends.length ≤ 1 ∧
    ∀ call ∈ (match_and_send chatId (pre ++ r :: post) text gw).sends,
      call.chat_id = chatId ∧ call.message_thread_id = r.topic_id := by
  obtain ⟨m, hm⟩ := Option.isSome_iff_exists.mp hr
  simp only [match_and_send, if_neg htext]
  rw [routeLoop_append_pre chatId gw text pre (r :: post) 0 hpre]
  simp only [Nat.zero_add]
  cases hrender : r.template.render (buildData r.pattern m text) with
  | error e =>
      rw [routeLoop_cons_render_error chatId gw post pre.length hm hrender]
      simp [range'_zero_concat]
  | ok out =>
      rw [routeLoop_cons_render_ok chatId gw post pre.length hm hrender]
      cases hgw : gw ⟨chatId, out, r.topic_id, true⟩ <;>
        simp [hgw, range'_zero_concat]

/-- C1 witness: with rules for `z`, `a`, `b` in that order and input
`"abc"`, only the first two rules are evaluated and the single send goes to
the `a`-rule's topic. -/
theorem first_match_wins_witness :
    (match_and_send 9 ([ruleZ] ++ ruleA :: [ruleB]) "abc" (fun _ => true)).evaluated =
      List.range 2 ∧
    (match_and_send 9 ([ruleZ] ++ ruleA :: [ruleB]) "abc" (fun _ => true)).sends.length ≤ 1 ∧
    ∀ call ∈ (match_and_send 9 ([ruleZ] ++ ruleA :: [ruleB]) "abc" (fun _ => true)).sends,
      call.chat_id = 9 ∧ call.message_thread_id = ruleA.topic_id :=
  first_match_wins 9 (fun _ => true) "abc" [ruleZ] ruleA [ruleB]
    (by decide) (by decide) (by decide)

/-- C5: a failed gateway send is caught by the `try/except` of source lines
89-99: the routing call returns the delivery-failed outcome (no exception
escapes), exactly one send was attempted (no retry), and — the router being
stateless — later invocations are unaffected. -/
theorem delivery_failure_not_fatal (chatId : Int) (gw : SendCall → Bool) (text : String)
    (pre : List Rule) (r : Rule) (post : List Rule) (m : MatchRes) (out : String)
    (htext : text ≠ "")
    (hpre : ∀ r2 ∈ pre, r2.pattern.search text = none)
    (hm : r.pattern.search text = some m)
    (hrender : r.template.render (buildData r.pattern m text) = .ok out)
    (hgw : gw ⟨chatId, out, r.topic_id, true⟩ = false) :
    match_and_send chatId (pre ++ r :: post) text gw =
      ⟨.deliveryFailed, List.range (pre.length + 1), [⟨chatId, out, r.topic_id, true⟩]⟩ := by
  simp only [match_and_send, if_neg htext]
  rw [routeLoop_append_pre chatId gw text pre (r :: post) 0 hpre]
  simp only [Nat.zero_add]
  rw [routeLoop_cons_render_ok chatId gw post pre.length hm hrender, hgw]
  simp [range'_zero_concat]

/-- C5 witness: a gateway that always fails makes the routing of `"abc"`
return the delivery-failed outcome with the one attempted call. -/
theorem delivery_failure_not_fatal_witness :
    match_and_send 9 ([ruleZ] ++ ruleA :: [ruleB]) "abc" (fun _ => false) =
      ⟨.deliveryFailed, List.range 2, [⟨9, "A", 22, true⟩]⟩ :=
  delivery_failure_not_fatal 9 (fun _ => false) "abc" [ruleZ] ruleA [ruleB] ⟨0, 1, []⟩ "A"
    (by decide) (by decide) (by decide) rfl rfl

/-- C4 (amended): when the first matching rule's template fails at render
time, the error is NOT caught inside `match_and_send` — the render call on
source line 88 sits outside the `try` of lines 89-99 — so the exception
escapes the routing operation; no send is attempted and no further rule is
evaluated.  (The framework calling the handler is what keeps the process
alive, not this function.) -/
theorem render_fault_escapes (chatId : Int) (gw : SendCall → Bool) (text : String)
    (pre : List Rule) (r : Rule) (post : List Rule) (m : MatchRes) (e : String)
    (htext : text ≠ "")
    (hpre : ∀ r2 ∈ pre, r2.pattern.search text = none)
    (hm : r.pattern.search text = some m)
    (hrender : r.template.render (buildData r.pattern m text) = .error e) :
    match_and_send chatId (pre ++ r :: post) text gw =
      ⟨.raised e, List.range (pre.length + 1), []⟩ := by
  simp only [match_and_send, if_neg htext]
  rw [routeLoop_append_pre chatId gw text pre (r :: post) 0 hpre]
  simp only [Nat.zero_add]
  rw [routeLoop_cons_render_error chatId gw post pre.length hm hrender]
  simp [range'_zero_concat]

/-- C4 witness (for the amended claim): a rule whose template adds `1` to an
undefined name raises out of the routing call. -/
theorem render_fault_escapes_witness :
    match_and_send 9 ([ruleZ] ++ ruleBad :: [ruleB]) "abc" (fun _ => true) =
      ⟨.raised "UndefinedError", List.range 2, []⟩ :=
  render_fault_escapes 9 (fun _ => true) "abc" [ruleZ] ruleBad [ruleB] ⟨0, 1, []⟩
    "UndefinedError" (by decide) (by decide) (by decide) rfl

/-- C4 counterexample: for the loaded configuration whose template is
`(braces) code + 1 (braces)` and input `"abc"`, the routing call ends with an
uncaught `TypeError`, not with the spec's `Outcome.renderFailed`, and no
send is attempted. -/
theorem render_fault_counterexample :
    (match_and_send 1 (loadedRules cfgRenderFault) "abc" (fun _ => true)).outcome =
      .raised "TypeError: unsupported operand type(s) for +" ∧
    (match_and_send 1 (loadedRules cfgRenderFault) "abc" (fun _ => true)).outcome ≠
      .renderFailed ∧
    (match_and_send 1 (loadedRules cfgRenderFault) "abc" (fun _ => true)).sends = [] := by
  decide

@[simp] theorem except_bind_ok {α β : Type} (a : α) (f : α → Except String β) :
    (Except.ok a >>= f) = f a := rfl

@[simp] theorem except_bind_error {α β : Type} (e : String) (f : α → Except String β) :
    ((Except.error e : Except String α) >>= f) = .error e := rfl

/-- C2 (amended): an optional named capture group that did not participate
in the match reaches the template as Python `None` (`m.groupdict()` maps it
to `None`), and rendering it produces the string `"None"` — not the empty
string the spec promises, though indeed not an error. -/
theorem absent_group_renders_none (p : CompiledPattern) (m : MatchRes) (text : String)
    (n : String) (hn : n ≠ "_raw")
    (h : (p.groupdict m).lookup n = some none) :
    Template.render ⟨[.expr (.var n)]⟩ (buildData p m text) = .ok "None" := by
  have hlook : (buildData p m text).lookup n = some JVal.vnone := by
    rw [buildData, dictSet_lookup_ne _ _ _ _ hn, lookup_map_snd, h]
    rfl
  have heval : evalJExpr (buildData p m text) (.var n) = .ok .vnone := by
    simp [evalJExpr, hlook]
  simp [Template.render, renderParts, heval, JVal.toOutput]

/-- C2 witness (for the amended claim): the optional group `code` of
`(?P<code>x)?y` does not participate in the match of `"y"`, and its
template field renders as `"None"`. -/
theorem absent_group_renders_none_witness :
    Template.render ⟨[.expr (.var "code")]⟩ (buildData patOptional ⟨0, 1, []⟩ "y") =
      .ok "None" :=
  absent_group_renders_none patOptional ⟨0, 1, []⟩ "y" "code" (by decide) (by decide)

/-- C2 counterexample: routing `"y"` through the loaded
`cfgOptionalGroup` delivers the text `"None"`, not the empty string. -/
theorem absent_group_empty_render_counterexample :
    (match_and_send 1 (loadedRules cfgOptionalGroup) "y" (fun _ => true)).sends =
      [⟨1, "None", 5, true⟩] ∧
    ("None" : String) ≠ "" := by
  decide

theorem loadList_append_error (pre : List Yaml) (r : Yaml) (post : List Yaml)
    (h : exceptOk (load_rule r) = false) :
    exceptOk (loadList (pre ++ r :: post)) = false := by
  induction pre with
  | nil =>
      cases hr : load_rule r with
      | error e => simp [loadList, hr, exceptOk]
      | ok rule => rw [hr] at h; simp [exceptOk] at h
  | cons hd tl ih =>
      cases hh : load_rule hd with
      | error e => simp [loadList, hh, exceptOk]
      | ok rule =>
          cases ht : loadList (tl ++ r :: post) with
          | error e => simp [loadList, hh, ht, exceptOk]
          | ok rs => rw [ht] at ih; simp [exceptOk] at ih

theorem load_rules_list_ok (entries : List Yaml) (rs : List Rule)
    (h : loadList entries = .ok rs) :
    load_rules (.list entries) = .ok ⟨rs, rs.isEmpty⟩ := by
  cases entries with
  | nil =>
      have : rs = [] := by
        rw [loadList] at h
        exact (Except.ok.injEq _ _ ▸ h).symm
      subst this
      rfl
  | cons hd tl =>
      simp [load_rules, Yaml.truthy, h]

theorem load_rules_list_error (entries : List Yaml) (e : String)
    (h : loadList entries = .error e) :
    load_rules (.list entries) = .error e := by
  cases entries with
  | nil => rw [loadList] at h; exact absurd h (by simp)
  | cons hd tl => simp [load_rules, Yaml.truthy, h]

theorem load_rule_missing_key (kvs : List (String × Yaml))
    (h : kvs.lookup "pattern" = none ∨ kvs.lookup "topic_id" = none ∨
         kvs.lookup "template" = none) :
    exceptOk (load_rule (.map kvs)) = false := by
  rcases h with hp | ht | htpl
  · simp [load_rule, yamlGet, hp, exceptOk]
  · cases hpat : kvs.lookup "pattern" with
    | none => simp [load_rule, yamlGet, hpat, exceptOk]
    | some pv => simp [load_rule, yamlGet, hpat, ht, exceptOk]
  · cases hpat : kvs.lookup "pattern" with
    | none => simp [load_rule, yamlGet, hpat, exceptOk]
    | some pv =>
        cases htid : kvs.lookup "topic_id" with
        | none => simp [load_rule, yamlGet, hpat, htid, exceptOk]
        | some tv =>
            cases hint : pyInt tv with
            | error e => simp [load_rule, yamlGet, hpat, htid, hint, exceptOk]
            | ok n => simp [load_rule, yamlGet, hpat, htid, hint, htpl, exceptOk]

theorem load_rule_bad_pattern (r : Yaml) (s : String)
    (hget : yamlGet r "pattern" = .ok (.str s))
    (hre : exceptOk (reCompile s true) = false) :
    exceptOk (load_rule r) = false := by
  cases htid : yamlGet r "topic_id" with
  | error e => simp [load_rule, hget, htid, exceptOk]
  | ok tv =>
      cases hint : pyInt tv with
      | error e => simp [load_rule, hget, htid, hint, exceptOk]
      | ok n =>
          cases htpl : yamlGet r "template" with
          | error e => simp [load_rule, hget, htid, hint, htpl, exceptOk]
          | ok tplv =>
              cases hc : reCompile s true with
              | error e =>
                  simp [load_rule, hget, htid, hint, htpl, compilePatternField, hc,
                    exceptOk]
              | ok p => rw [hc] at hre; simp [exceptOk] at hre

theorem load_rule_bad_template (r : Yaml) (s : String)
    (hget : yamlGet r "template" = .ok (.str s))
    (htc : exceptOk (templateCompile s) = false) :
    exceptOk (load_rule r) = false := by
  cases hpat : yamlGet r "pattern" with
  | error e => simp [load_rule, hpat, exceptOk]
  | ok pv =>
      cases htid : yamlGet r "topic_id" with
      | error e => simp [load_rule, hpat, htid, exceptOk]
      | ok tv =>
          cases hint : pyInt tv with
          | error e => simp [load_rule, hpat, htid, hint, exceptOk]
          | ok n =>
              cases hcp : compilePatternField pv with
              | error e => simp [load_rule, hpat, htid, hint, hget, hcp, exceptOk]
              | ok p =>
                  cases hct : templateCompile s with
                  | error e =>
                      simp [load_rule, hpat, htid, hint, hget, hcp,
                        compileTemplateField, hct, exceptOk]
                  | ok tpl => rw [hct] at htc; simp [exceptOk] at htc

/-- C3 (amended): `load_rules` fails, producing no partial rule set,
whenever the document root is TRUTHY and not a sequence, or any entry
anywhere in the sequence is malformed: a missing key, a pattern that fails
to compile, or a template that fails to compile.  The amendment forced by
the counterexample: a falsy non-sequence root (`null`, `false`, `0`, `""`,
`{}`) is coerced by the `or []` of source line 43 to the empty sequence and
loads successfully as an empty rule set instead of failing. -/
theorem load_rejects_malformed :
    (∀ doc : Yaml, doc.truthy = true → doc.isList = false →
        exceptOk (load_rules doc) = false) ∧
    (∀ (pre : List Yaml) (r : Yaml) (post : List Yaml),
        exceptOk (load_rule r) = false →
        exceptOk (load_rules (.list (pre ++ r :: post))) = false) ∧
    (∀ kvs : List (String × Yaml),
        (kvs.lookup "pattern" = none ∨ kvs.lookup "topic_id" = none ∨
         kvs.lookup "template" = none) →
        exceptOk (load_rule (.map kvs)) = false) ∧
    (∀ (r : Yaml) (s : String), yamlGet r "pattern" = .ok (.str s) →
        exceptOk (reCompile s true) = false → exceptOk (load_rule r) = false) ∧
    (∀ (r : Yaml) (s : String), yamlGet r "template" = .ok (.str s) →
        exceptOk (templateCompile s) = false → exceptOk (load_rule r) = false) := by
  refine ⟨?_, ?_, load_rule_missing_key, load_rule_bad_pattern, load_rule_bad_template⟩
  · intro doc h1 h2
    cases doc <;> simp_all [load_rules, Yaml.truthy, Yaml.isList, exceptOk]
  · intro pre r post h
    have hfail := loadList_append_error pre r post h
    cases hl : loadList (pre ++ r :: post) with
    | error e => rw [load_rules_list_error _ _ hl]; rfl
    | ok rs => rw [hl] at hfail; simp [exceptOk] at hfail

/-- C3 counterexample: the YAML document `false` is not a sequence, yet
`load_rules` succeeds with an empty rule set (and the empty warning),
because `yaml.safe_load(f) or []` coerces every falsy root to `[]` before
the sequence check. -/
theorem load_malformed_counterexample :
    Yaml.isList (Yaml.bool false) = false ∧
    load_rules (Yaml.bool false) = .ok ⟨[], true⟩ :=
  ⟨rfl, rfl⟩

/-- C3 witness: concrete failing loads — a truthy non-sequence root, a
sequence with one bad entry, an entry with a missing `pattern` key, an
uncompilable pattern `"("`, an uncompilable template `"(open braces)"`. -/
theorem load_rejects_malformed_witness :
    exceptOk (load_rules (.str "rules")) = false ∧
    exceptOk (load_rules (.list ([] ++ Yaml.map [("pattern", .str "("),
        ("topic_id", .int 1), ("template", .str "t")] :: []))) = false ∧
    exceptOk (load_rule (.map [("topic_id", .int 1), ("template", .str "t")])) = false ∧
    exceptOk (load_rule (.map [("pattern", .str "("), ("topic_id", .int 1),
        ("template", .str "t")])) = false ∧
    exceptOk (load_rule (.map [("pattern", .str "a"), ("topic_id", .int 1),
        ("template", .str "\x7b\x7b")])) = false :=
  ⟨load_rejects_malformed.1 (.str "rules") (by decide) (by decide),
   load_rejects_malformed.2.1 [] (Yaml.map [("pattern", .str "("), ("topic_id", .int 1),
     ("template", .str "t")]) [] (by decide),
   load_rejects_malformed.2.2.1 [("topic_id", .int 1), ("template", .str "t")]
     (Or.inl rfl),
   load_rejects_malformed.2.2.2.1 (.map [("pattern", .str "("), ("topic_id", .int 1),
     ("template", .str "t")]) "(" rfl (by decide),
   load_rejects_malformed.2.2.2.2 (.map [("pattern", .str "a"), ("topic_id", .int 1),
     ("template", .str "\x7b\x7b")]) "\x7b\x7b" rfl (by decide)⟩

theorem loadList_of_wellformed (entries : List Yaml)
    (h : ∀ e ∈ entries, exceptOk (load_rule e) = true) :
    ∃ rules : List Rule, loadList entries = .ok rules ∧
      List.Forall₂ (fun en ru => load_rule en = .ok ru) entries rules := by
  induction entries with
  | nil => exact ⟨[], rfl, List.Forall₂.nil⟩
  | cons hd tl ih =>
      have hhd := h hd (by simp)
      cases hld : load_rule hd with
      | error e => rw [hld] at hhd; simp [exceptOk] at hhd
      | ok r0 =>
          obtain ⟨rules, hrules, hfa⟩ := ih (fun e he => h e (by simp [he]))
          refine ⟨r0 :: rules, ?_, List.Forall₂.cons hld hfa⟩
          simp [loadList, hld, hrules]

/-- C7 (amended): a well-formed configuration — one where every entry loads
— yields a rule set of the same length with the rules in entry order; the
empty configuration loads as the empty rule set with the warning flag set;
and over an empty rule set every NONEMPTY text routes to no-match.  The
amendment forced by the counterexample: with empty input text the router
still short-circuits to the skipped outcome, so `route` does not return
no-match for literally every text. -/
theorem load_wellformed_length_order :
    (∀ entries : List Yaml, (∀ e ∈ entries, exceptOk (load_rule e) = true) →
        ∃ rules : List Rule,
          load_rules (.list entries) = .ok ⟨rules, rules.isEmpty⟩ ∧
          List.Forall₂ (fun en ru => load_rule en = .ok ru) entries rules ∧
          rules.length = entries.length) ∧
    load_rules (.list []) = .ok ⟨[], true⟩ ∧
    (∀ (chatId : Int) (gw : SendCall → Bool) (text : String), text ≠ "" →
        match_and_send chatId [] text gw = ⟨.noMatch, [], []⟩) := by
  refine ⟨?_, rfl, ?_⟩
  · intro entries h
    obtain ⟨rules, hok, hfa⟩ := loadList_of_wellformed entries h
    exact ⟨rules, load_rules_list_ok entries rules hok, hfa, hfa.length_eq.symm⟩
  · intro chatId gw text h
    simp [match_and_send, h, routeLoop]

/-- C7 counterexample: over the empty rule set the empty input text returns
the skipped outcome, not no-match, so `route` over an empty RuleSet does not
ALWAYS return no-match. -/
theorem empty_ruleset_counterexample :
    match_and_send 1 [] "" (fun _ => true) = ⟨.skipped, [], []⟩ ∧
    Outcome.skipped ≠ Outcome.noMatch :=
  ⟨rfl, by decide⟩

/-- C7 witness: a one-entry configuration loads to exactly one rule in
order, and an empty rule set routes nonempty text to no-match. -/
theorem load_wellformed_length_order_witness :
    (∃ rules : List Rule,
        load_rules (.list [.map [("pattern", .str "a"), ("topic_id", .int 1),
            ("template", .str "t")]]) = .ok ⟨rules, rules.isEmpty⟩ ∧
        List.Forall₂ (fun en ru => load_rule en = .ok ru)
          [Yaml.map [("pattern", .str "a"), ("topic_id", .int 1),
            ("template", .str "t")]] rules ∧
        rules.length = 1) ∧
    match_and_send 3 [] "x" (fun _ => true) = ⟨.noMatch, [], []⟩ :=
  ⟨load_wellformed_length_order.1
      [Yaml.map [("pattern", .str "a"), ("topic_id", .int 1), ("template", .str "t")]]
      (by decide),
   load_wellformed_length_order.2.2 3 (fun _ => true) "x" (by decide)⟩

theorem reCompile_ml (s : String) (ml : Bool) (p : CompiledPattern)
    (h : reCompile s ml = .ok p) : p.ml = ml := by
  unfold reCompile at h
  cases hp : parseAlt (3 * s.toList.length + 8) s.toList with
  | error e => rw [hp] at h; simp at h
  | ok ar =>
      obtain ⟨a, rest⟩ := ar
      rw [hp] at h
      simp only [except_bind_ok] at h
      cases rest with
      | cons c r => simp at h
      | nil =>
          by_cases hn : (groupNames a).Nodup
          · simp [hn] at h
            rw [← h]
          · simp [hn] at h

theorem compilePatternField_ml (v : Yaml) (p : CompiledPattern)
    (h : compilePatternField v = .ok p) : p.ml = true := by
  cases v <;> simp [compilePatternField] at h
  exact reCompile_ml _ _ _ h

theorem load_rule_ml (en : Yaml) (r : Rule) (h : load_rule en = .ok r) :
    r.pattern.ml = true := by
  unfold load_rule at h
  cases h1 : yamlGet en "pattern" with
  | error e2 => rw [h1] at h; simp at h
  | ok pv =>
      rw [h1] at h; simp only [except_bind_ok] at h
      cases h2 : yamlGet en "topic_id" with
      | error e2 => rw [h2] at h; simp at h
      | ok tv =>
          rw [h2] at h; simp only [except_bind_ok] at h
          cases h3 : pyInt tv with
          | error e2 => rw [h3] at h; simp at h
          | ok n =>
              rw [h3] at h; simp only [except_bind_ok] at h
              cases h4 : yamlGet en "template" with
              | error e2 => rw [h4] at h; simp at h
              | ok tplv =>
                  rw [h4] at h; simp only [except_bind_ok] at h
                  cases h5 : compilePatternField pv with
                  | error e2 => rw [h5] at h; simp at h
                  | ok pat =>
                      rw [h5] at h; simp only [except_bind_ok] at h
                      cases h6 : compileTemplateField tplv with
                      | error e2 => rw [h6] at h; simp at h
                      | ok tpl =>
                          rw [h6] at h; simp only [except_bind_ok] at h
                          have hr : r = ⟨pat, n, tpl⟩ := by
                            have := (Except.ok.injEq
                              (⟨pat, n, tpl⟩ : Rule) r).mp h
                            exact this.symm
                          rw [hr]
                          exact compilePatternField_ml pv pat h5

theorem loadList_ml (entries : List Yaml) (rules : List Rule)
    (h : loadList entries = .ok rules) : ∀ r ∈ rules, r.pattern.ml = true := by
  induction entries generalizing rules with
  | nil =>
      rw [loadList] at h
      have : rules = [] := by simpa using h.symm
      subst this
      simp
  | cons hd tl ih =>
      rw [loadList] at h
      cases h1 : load_rule hd with
      | error e => rw [h1] at h; simp at h
      | ok r0 =>
          rw [h1] at h; simp only [except_bind_ok] at h
          cases h2 : loadList tl with
          | error e => rw [h2] at h; simp at h
          | ok rs =>
              rw [h2] at h; simp only [except_bind_ok] at h
              have hrules : rules = r0 :: rs := by simpa using h.symm
              subst hrules
              intro r hr
              rcases List.mem_cons.mp hr with hr0 | hrs
              · rw [hr0]; exact load_rule_ml hd r0 h1
              · exact ih rs h2 r hrs

theorem load_rules_ml (doc : Yaml) (res : LoadResult)
    (h : load_rules doc = .ok res) : ∀ r ∈ res.rules, r.pattern.ml = true := by
  unfold load_rules at h
  cases hraw : (if doc.truthy then doc else Yaml.list []) with
  | null => rw [hraw] at h; simp at h
  | bool b => rw [hraw] at h; simp at h
  | int n => rw [hraw] at h; simp at h
  | str s => rw [hraw] at h; simp at h
  | map kvs => rw [hraw] at h; simp at h
  | list entries =>
      rw [hraw] at h
      have h2 : (loadList entries >>= fun rules =>
          Except.ok (⟨rules, rules.isEmpty⟩ : LoadResult)) = Except.ok res := h
      cases hl : loadList entries with
      | error e => rw [hl] at h2; simp at h2
      | ok rs =>
          rw [hl] at h2; simp only [except_bind_ok] at h2
          have hres : res = ⟨rs, rs.isEmpty⟩ := by
            have := (Except.ok.injEq (⟨rs, rs.isEmpty⟩ : LoadResult) res).mp h2
            exact this.symm
          subst hres
          exact loadList_ml entries rs hl

theorem search_isSome_iff (p : CompiledPattern) (text : String) :
    (p.search text).isSome = true ↔
      ∃ i, i ≤ text.toList.length ∧ (p.matchAt text.toList i).isSome = true := by
  rw [CompiledPattern.search, findSome?_isSome_iff]
  constructor
  · rintro ⟨i, hi, hsome⟩
    exact ⟨i, Nat.lt_succ_iff.mp (List.mem_range.mp hi), hsome⟩
  · rintro ⟨i, hi, hsome⟩
    exact ⟨i, List.mem_range.mpr (Nat.lt_succ_iff.mpr hi), hsome⟩

theorem lineStartOk_true_iff (chars : List Char) (i : Nat) :
    lineStartOk true chars i = true ↔ (i = 0 ∨ chars.get? (i - 1) = some '\n') := by
  simp [lineStartOk]

theorem lineEndOk_true_iff (chars : List Char) (i : Nat) :
    lineEndOk true chars i = true ↔ (i = chars.length ∨ chars.get? i = some '\n') := by
  simp [lineEndOk]

theorem matchAt_anchorStart_iff (text : String) (i : Nat) :
    ((CompiledPattern.mk .anchorStart true).matchAt text.toList i).isSome = true ↔
      (i = 0 ∨ text.toList.get? (i - 1) = some '\n') := by
  rw [← lineStartOk_true_iff]
  by_cases h : lineStartOk true text.toList i
  · have h2 : lineStartOk true text.data i = true := h
    simp [CompiledPattern.matchAt, matchRE, h, h2]
  · have h2 : lineStartOk true text.data i = false := Bool.not_eq_true _ ▸ h
    simp [CompiledPattern.matchAt, matchRE, h, h2]

theorem matchAt_anchorEnd_iff (text : String) (i : Nat) :
    ((CompiledPattern.mk .anchorEnd true).matchAt text.toList i).isSome = true ↔
      (i = text.toList.length ∨ text.toList.get? i = some '\n') := by
  rw [← lineEndOk_true_iff]
  by_cases h : lineEndOk true text.toList i
  · have h2 : lineEndOk true text.data i = true := h
    simp [CompiledPattern.matchAt, matchRE, h, h2]
  · have h2 : lineEndOk true text.data i = false := Bool.not_eq_true _ ▸ h
    simp [CompiledPattern.matchAt, matchRE, h, h2]

/-- C8: matching is substring search with multiline anchor semantics: every
rule produced by `load_rules` carries the `re.MULTILINE` flag; `search`
succeeds exactly when the pattern matches at SOME position of the text (a
search, not a full-string match — the pattern need not consume the whole
text nor start at its beginning); and for multiline-compiled patterns the
`^` anchor accepts exactly the start of the text and any position directly
after a newline, `$` exactly the end and any position directly before a
newline — line boundaries inside the text, not only its ends. -/
theorem multiline_substring_search :
    (∀ (doc : Yaml) (res : LoadResult), load_rules doc = .ok res →
        ∀ r ∈ res.rules, r.pattern.ml = true) ∧
    (∀ (p : CompiledPattern) (text : String),
        (p.search text).isSome = true ↔
          ∃ i, i ≤ text.toList.length ∧ (p.matchAt text.toList i).isSome = true) ∧
    (∀ (text : String) (i : Nat),
        ((CompiledPattern.mk .anchorStart true).matchAt text.toList i).isSome = true ↔
          (i = 0 ∨ text.toList.get? (i - 1) = some '\n')) ∧
    (∀ (text : String) (i : Nat),
        ((CompiledPattern.mk .anchorEnd true).matchAt text.toList i).isSome = true ↔
          (i = text.toList.length ∨ text.toList.get? i = some '\n')) :=
  ⟨load_rules_ml, search_isSome_iff, matchAt_anchorStart_iff, matchAt_anchorEnd_iff⟩

/-- C8 witness: the loaded Scenario B rules are multiline-compiled, and the
multiline `^` anchor matches inside `"junk\nINFO: x"` at position 5 — a line
boundary in the middle of the text. -/
theorem multiline_substring_search_witness :
    (∀ r ∈ loadedRules cfgScenarioB, r.pattern.ml = true) ∧
    ((CompiledPattern.mk .anchorStart true).matchAt "junk\nINFO: x".toList 5).isSome =
      true :=
  ⟨multiline_substring_search.1 cfgScenarioB ⟨loadedRules cfgScenarioB, false⟩ rfl,
   (multiline_substring_search.2.2.1 "junk\nINFO: x" 5).mpr (Or.inr (by decide))⟩
